import Mathlib

/-!
Shallow embedding of `src/nosql_lib/redis/src/RedisConnection.cc` (drogon).

The connection object holds two FIFO queues of continuations
(`commandCallbacks_`, `exceptionCallbacks_`), a lifecycle state
(`connected_`), and a reactor channel (`channel_`).  Continuations are
opaque `std::function` values in the C++ source; here each continuation is
identified by the numeric id of the `send` call that enqueued it, and an
invocation of a continuation is recorded as an `Event` in an emitted event
list, so that "which continuation fired, with what argument" is observable.
-/

namespace Drogon

/-- Lifecycle states of a connection.  `kConnected` and `kEnd` are assigned
in `RedisConnection.cc`; `kNone` (initial) and `kConnecting` come from the
connection header, which is not part of the sources here.
Modelled from the spec: the initial state is Unconnected (`kNone`) and
`start` moves it to Connecting (`kConnecting`). -/
inductive ConnectStatus where
  | kNone : ConnectStatus
  | kConnecting : ConnectStatus
  | kConnected : ConnectStatus
  | kEnd : ConnectStatus
deriving DecidableEq, Repr

/-- A trantor channel: read/write subscriptions plus whether `remove()` has
been called on it. -/
structure Channel where
  reading : Bool
  writing : Bool
  removed : Bool
deriving DecidableEq, Repr

/-- channel_->disableAll(): drop both reactor subscriptions. -/
def Channel.disableAll (ch : Channel) : Channel :=
  { ch with reading := false, writing := false }

/-- channel_->remove(): unregister the channel from the reactor. -/
def Channel.remove (ch : Channel) : Channel :=
  { ch with removed := true }

/-- The fields of a hiredis `redisReply` that `RedisConnection.cc` reads:
`type` and `str` (the error text for an error reply). -/
structure RedisReply where
  type : Nat
  str : String
deriving DecidableEq, Repr

/-- hiredis reply-type constant for a protocol-level error reply. -/
def REDIS_REPLY_ERROR : Nat := 6

/-- hiredis success status constant. -/
def REDIS_OK : Int := 0

/-- hiredis context flag: connection established (bit 0x2 of `c.flags`). -/
def REDIS_CONNECTED : Nat := 2

/-- hiredis context flag: disconnect requested (bit 0x4 of `c.flags`). -/
def REDIS_DISCONNECTING : Nat := 4

/-- Observable invocations of caller-supplied handlers.  `success id r`
records the command callback of send number `id` being called with the
decoded reply `r` (wrapped in `RedisResultImpl` in the C++ source);
`failure id e` records the exception callback being called with the error
text `e`. -/
inductive Event where
  | success (id : Nat) (reply : RedisReply) : Event
  | failure (id : Nat) (err : String) : Event
  | connectHandler (status : Int) : Event
  | disconnectHandler (status : Int) : Event
deriving DecidableEq, Repr

/-- The state of a `RedisConnection`.  The two continuation queues are
`std::queue` (FIFO: push at tail, pop at head), modelled as lists holding
the id of the send that enqueued each continuation.  `connectCallback_`
and `disconnectCallback_` record whether the corresponding user handler is
installed (the C++ code tests them for emptiness before invoking). -/
structure RedisConnection where
  connected_ : ConnectStatus
  channel_ : Option Channel
  commandCallbacks_ : List Nat
  exceptionCallbacks_ : List Nat
  command_ : String
  connectCallback_ : Bool
  disconnectCallback_ : Bool
deriving DecidableEq, Repr

/-- `RedisConnection::startConnectionInLoop` (lines 29-86): creates the
redis context and the channel over its socket.  The channel starts with no
subscriptions enabled.
Modelled from the spec: the state move Unconnected → Connecting happens at
start; the `.cc` file only installs hooks here and the header holding the
initial assignment is not among the sources. -/
def startConnectionInLoop (c : RedisConnection) : RedisConnection :=
  { c with
      connected_ := ConnectStatus.kConnecting,
      channel_ := some { reading := false, writing := false, removed := false } }

/-- `RedisConnection::handleDisconnect` (lines 88-97): sets the state to
`kEnd`; if the channel is still alive, disables all its subscriptions,
removes it from the reactor and releases it.  It touches nothing else and
invokes no continuation, hence the constant empty event list. -/
def handleDisconnect (c : RedisConnection) : RedisConnection × List Event :=
  let c1 := { c with connected_ := ConnectStatus.kEnd }
  match c1.channel_ with
  | some ch =>
      let _released := (ch.disableAll).remove
      ({ c1 with channel_ := none }, [])
  | none => (c1, [])

/-- The connect callback installed by `startConnectionInLoop`
(lines 46-72): on failure run `handleDisconnect` then invoke the
disconnect handler with the status; on success set `kConnected` and invoke
the connect handler with the status. -/
def connectCallbackInLoop (c : RedisConnection) (status : Int) :
    RedisConnection × List Event :=
  if status ≠ REDIS_OK then
    let p := handleDisconnect c
    (p.1, p.2 ++ (if p.1.disconnectCallback_
                  then [Event.disconnectHandler status] else []))
  else
    let c1 := { c with connected_ := ConnectStatus.kConnected }
    (c1, if c1.connectCallback_ then [Event.connectHandler status] else [])

/-- The disconnect callback installed by `startConnectionInLoop`
(lines 73-85): run `handleDisconnect`, then invoke the disconnect handler
with the engine-supplied status. -/
def disconnectCallbackInLoop (c : RedisConnection) (status : Int) :
    RedisConnection × List Event :=
  let p := handleDisconnect c
  (p.1, p.2 ++ (if p.1.disconnectCallback_
                then [Event.disconnectHandler status] else []))

/-- `RedisConnection::sendCommandInloop` (lines 141-159): pushes the
command callback and the exception callback (both from the same send,
identified here by `id`) onto the tails of the two queues, stores the
command text, and hands the bytes to `redisAsyncFormattedCommand`. -/
def sendCommandInloop (c : RedisConnection) (command : String) (id : Nat) :
    RedisConnection :=
  { c with
      commandCallbacks_ := c.commandCallbacks_ ++ [id],
      exceptionCallbacks_ := c.exceptionCallbacks_ ++ [id],
      command_ := command }

/-- Whether the continuation invoked by `handleResult` returns normally or
propagates an exception out of the dispatch. -/
inductive ContOutcome where
  | normal : ContOutcome
  | throws : ContOutcome
deriving DecidableEq, Repr

/-- Outcome of one `handleResult` call: the connection afterwards, the
handler invocations it performed, and how the invoked continuation ended. -/
structure ResultStep where
  conn : RedisConnection
  events : List Event
  outcome : ContOutcome
deriving DecidableEq, Repr

/-- `RedisConnection::handleResult` (lines 161-175): moves the front of
both queues out and pops them, then — with the queues already advanced —
invokes exactly one of the two continuations: the exception callback with
`result->str` when `result->type == REDIS_REPLY_ERROR`, the command
callback with the decoded reply otherwise.  `contBehavior` models what the
invoked continuation does; nothing follows the invocation in the source,
so it cannot influence the connection.  `front()` on an empty `std::queue`
is undefined behaviour in C++; that case is mapped to a no-op here and
every theorem about dispatch assumes a pending entry. -/
def handleResultRun (c : RedisConnection) (result : RedisReply)
    (contBehavior : ContOutcome) : ResultStep :=
  match c.commandCallbacks_, c.exceptionCallbacks_ with
  | cb :: cbs, ecb :: ecbs =>
      let c1 := { c with commandCallbacks_ := cbs, exceptionCallbacks_ := ecbs }
      if result.type ≠ REDIS_REPLY_ERROR then
        { conn := c1, events := [Event.success cb result], outcome := contBehavior }
      else
        { conn := c1, events := [Event.failure ecb result.str], outcome := contBehavior }
  | _, _ => { conn := c, events := [], outcome := ContOutcome.normal }

/-- `handleResult` with a normally-returning continuation. -/
def handleResult (c : RedisConnection) (result : RedisReply) :
    RedisConnection × List Event :=
  let s := handleResultRun c result ContOutcome.normal
  (s.conn, s.events)

/-- The single handler invocation `handleResult` performs for send `id`
and reply `r`. -/
def dispatchEvent (id : Nat) (r : RedisReply) : Event :=
  if r.type ≠ REDIS_REPLY_ERROR then Event.success id r
  else Event.failure id r.str

/-- Send a batch of commands in order (each with its id). -/
def sendAll (c : RedisConnection) (cmds : List (String × Nat)) :
    RedisConnection :=
  cmds.foldl (fun s p => sendCommandInloop s p.1 p.2) c

/-- Deliver a batch of replies in order, collecting the handler
invocations in order of occurrence. -/
def deliverAll (c : RedisConnection) (replies : List RedisReply) :
    RedisConnection × List Event :=
  match replies with
  | [] => (c, [])
  | r :: rs =>
      let p := handleResult c r
      let q := deliverAll p.1 rs
      (q.1, p.2 ++ q.2)

/-- `RedisConnection::handleRedisWrite` (lines 131-139) returns control to
the engine write pump; `channelAtPump` is the channel state at the moment
`redisAsyncHandleWrite` is entered. -/
structure WriteStep where
  channelAtPump : Channel
  pumpCalled : Bool
deriving DecidableEq, Repr

/-- `RedisConnection::handleRedisWrite` (lines 131-139): when the whole
flags word of the context equals `REDIS_DISCONNECTING`, first disable all
channel subscriptions and remove the channel, then call
`redisAsyncHandleWrite`; otherwise call it with the channel untouched. -/
def handleRedisWrite (ch : Channel) (flags : Nat) : WriteStep :=
  if flags = REDIS_DISCONNECTING then
    { channelAtPump := Channel.remove (Channel.disableAll ch), pumpCalled := true }
  else
    { channelAtPump := ch, pumpCalled := true }

/-- Wording of the spec, for comparison with `handleRedisWrite`: the
engine "reports it is in a disconnecting state" when the
`REDIS_DISCONNECTING` bit of its flags word is set (hiredis flags form a
bitmask). -/
def engineDisconnecting (flags : Nat) : Prop :=
  flags &&& REDIS_DISCONNECTING ≠ 0

instance (flags : Nat) : Decidable (engineDisconnecting flags) := by
  unfold engineDisconnecting
  infer_instance

/-- Lifecycle notifications the hiredis engine can deliver to the
callbacks installed by `startConnectionInLoop`. -/
inductive EngineEvent where
  | connectOk : EngineEvent
  | connectFail (status : Int) : EngineEvent
  | disconnected (status : Int) : EngineEvent
deriving DecidableEq, Repr

/-- Apply one engine notification to the connection via the installed
callbacks. -/
def engineStep (c : RedisConnection) : EngineEvent → RedisConnection × List Event
  | EngineEvent.connectOk => connectCallbackInLoop c REDIS_OK
  | EngineEvent.connectFail s => connectCallbackInLoop c s
  | EngineEvent.disconnected s => disconnectCallbackInLoop c s

/-- The connection states observed after each engine notification. -/
def runEngine (c : RedisConnection) : List EngineEvent → List ConnectStatus
  | [] => []
  | e :: es =>
      let c1 := (engineStep c e).1
      c1.connected_ :: runEngine c1 es

/-- All states a connection passes through: initial `kNone`, `kConnecting`
after `startConnectionInLoop`, then one state per engine notification. -/
def observedStates (c : RedisConnection) (t : List EngineEvent) :
    List ConnectStatus :=
  ConnectStatus.kNone :: ConnectStatus.kConnecting ::
    runEngine (startConnectionInLoop c) t

/-- Modelled from the spec: the notification sequences the engine can
deliver to one context — the connect callback fires at most once, first,
with `REDIS_OK` or a failure status, and the disconnect callback fires at
most once, only after a successful connect. -/
inductive ValidEngineTrace : List EngineEvent → Prop where
  | nil : ValidEngineTrace []
  | fail : ∀ s : Int, s ≠ REDIS_OK → ValidEngineTrace [EngineEvent.connectFail s]
  | ok : ValidEngineTrace [EngineEvent.connectOk]
  | okDisc : ∀ s : Int,
      ValidEngineTrace [EngineEvent.connectOk, EngineEvent.disconnected s]

/-- One pipeline operation: a send or a decoded reply. -/
inductive PipelineOp where
  | send (command : String) (id : Nat) : PipelineOp
  | reply (result : RedisReply) : PipelineOp

/-- Apply one pipeline operation to the connection. -/
def applyOp (c : RedisConnection) : PipelineOp → RedisConnection
  | PipelineOp.send cmd id => sendCommandInloop c cmd id
  | PipelineOp.reply r => (handleResult c r).1

/-- A connection in state `kConnected` with both queues holding exactly
the continuations of send number 7, used to instantiate hypotheses at a
concrete input. -/
def sampleConn : RedisConnection :=
  { connected_ := ConnectStatus.kConnected,
    channel_ := some { reading := true, writing := false, removed := false },
    commandCallbacks_ := [7],
    exceptionCallbacks_ := [7],
    command_ := "PING",
    connectCallback_ := true,
    disconnectCallback_ := true }

/-- A concrete protocol-level error reply. -/
def sampleErrorReply : RedisReply :=
  { type := REDIS_REPLY_ERROR, str := "ERR wrong number of arguments" }

/-- A concrete non-error reply. -/
def sampleOkReply : RedisReply := { type := 5, str := "OK" }

/-- C1: with at least one pending command, `handleResult` pops the oldest
entry of both queues and invokes exactly one of its two continuations
exactly once — the failure continuation with the reply's error text when
the reply type is `REDIS_REPLY_ERROR`, the success continuation with the
decoded reply value otherwise. -/
theorem C1_handleResult_exactly_one_continuation
    (c : RedisConnection) (r : RedisReply) (cb ecb : Nat) (cbs ecbs : List Nat)
    (hc : c.commandCallbacks_ = cb :: cbs)
    (he : c.exceptionCallbacks_ = ecb :: ecbs) :
    (handleResult c r).1.commandCallbacks_ = cbs ∧
    (handleResult c r).1.exceptionCallbacks_ = ecbs ∧
    (handleResult c r).2 =
      (if r.type = REDIS_REPLY_ERROR then [Event.failure ecb r.str]
       else [Event.success cb r]) := by
  by_cases ht : r.type = REDIS_REPLY_ERROR <;>
    simp [handleResult, handleResultRun, hc, he, ht]

/-- Witness for C1 at a concrete connection and error reply. -/
theorem C1_witness :
    sampleConn.commandCallbacks_ = 7 :: [] ∧
    sampleConn.exceptionCallbacks_ = 7 :: [] ∧
    (handleResult sampleConn sampleErrorReply).2 =
      [Event.failure 7 "ERR wrong number of arguments"] := by
  refine ⟨rfl, rfl, ?_⟩
  have h := C1_handleResult_exactly_one_continuation sampleConn sampleErrorReply
      7 7 [] [] rfl rfl
  simpa [sampleErrorReply, REDIS_REPLY_ERROR] using h.2.2

/-- C4: `handleDisconnect` sets the state to Ended, releases the channel,
and changes nothing else — both continuation queues, the stored command
and the installed handlers are untouched, and no continuation is
invoked. -/
theorem C4_handleDisconnect_frame (c : RedisConnection) :
    (handleDisconnect c).1.connected_ = ConnectStatus.kEnd ∧
    (handleDisconnect c).1.channel_ = none ∧
    (handleDisconnect c).1.commandCallbacks_ = c.commandCallbacks_ ∧
    (handleDisconnect c).1.exceptionCallbacks_ = c.exceptionCallbacks_ ∧
    (handleDisconnect c).1.command_ = c.command_ ∧
    (handleDisconnect c).1.connectCallback_ = c.connectCallback_ ∧
    (handleDisconnect c).1.disconnectCallback_ = c.disconnectCallback_ ∧
    (handleDisconnect c).2 = [] := by
  cases h : c.channel_ <;> simp [handleDisconnect, h]

/-- C9: `handleResult` advances both queues before invoking the chosen
continuation, so the connection left behind is the same whether the
continuation returns normally or throws, and the remaining entries are
the tails of the original queues in their original order. -/
theorem C9_pop_before_dispatch (c : RedisConnection) (r : RedisReply)
    (b : ContOutcome)
    (hc : c.commandCallbacks_ ≠ []) (he : c.exceptionCallbacks_ ≠ []) :
    (handleResultRun c r b).conn = (handleResultRun c r ContOutcome.normal).conn ∧
    (handleResultRun c r b).conn.commandCallbacks_ = c.commandCallbacks_.tail ∧
    (handleResultRun c r b).conn.exceptionCallbacks_ = c.exceptionCallbacks_.tail := by
  obtain ⟨cb, cbs, hc1⟩ := List.exists_cons_of_ne_nil hc
  obtain ⟨ecb, ecbs, he1⟩ := List.exists_cons_of_ne_nil he
  by_cases ht : r.type = REDIS_REPLY_ERROR <;>
    simp [handleResultRun, hc1, he1, ht]

/-- Witness for C9 at a concrete connection, reply and a throwing
continuation. -/
theorem C9_witness :
    sampleConn.commandCallbacks_ ≠ [] ∧
    sampleConn.exceptionCallbacks_ ≠ [] ∧
    (handleResultRun sampleConn sampleOkReply ContOutcome.throws).conn
      = (handleResultRun sampleConn sampleOkReply ContOutcome.normal).conn := by
  refine ⟨by simp [sampleConn], by simp [sampleConn], ?_⟩
  exact (C9_pop_before_dispatch sampleConn sampleOkReply ContOutcome.throws
      (by simp [sampleConn]) (by simp [sampleConn])).1

/-- C10: starting from lockstep queues, any sequence of sends and reply
dispatches keeps the success-continuation queue and the
failure-continuation queue the same length, with the i-th entries of both
queues coming from the same send. -/
theorem C10_queues_in_lockstep (c : RedisConnection) (ops : List PipelineOp)
    (h : c.commandCallbacks_ = c.exceptionCallbacks_) :
    (ops.foldl applyOp c).commandCallbacks_.length
        = (ops.foldl applyOp c).exceptionCallbacks_.length ∧
    ∀ i : Nat, (ops.foldl applyOp c).commandCallbacks_[i]?
        = (ops.foldl applyOp c).exceptionCallbacks_[i]? := by
  have key : ∀ (ops : List PipelineOp) (c : RedisConnection),
      c.commandCallbacks_ = c.exceptionCallbacks_ →
      (ops.foldl applyOp c).commandCallbacks_
        = (ops.foldl applyOp c).exceptionCallbacks_ := by
    intro ops
    induction ops with
    | nil => intro c hc; simpa using hc
    | cons op ops ih =>
      intro c hc
      rw [List.foldl_cons]
      apply ih
      cases op with
      | send cmd id => simp [applyOp, sendCommandInloop, hc]
      | reply r =>
          cases hq : c.commandCallbacks_ with
          | nil =>
              have hq2 : c.exceptionCallbacks_ = [] := by rw [← hc, hq]
              simp [applyOp, handleResult, handleResultRun, hq, hq2]
          | cons cb cbs =>
              have hq2 : c.exceptionCallbacks_ = cb :: cbs := by rw [← hc, hq]
              by_cases ht : r.type = REDIS_REPLY_ERROR <;>
                simp [applyOp, handleResult, handleResultRun, hq, hq2, ht]
  have hk := key ops c h
  exact ⟨by rw [hk], fun i => by rw [hk]⟩

/-- Witness for C10 at a concrete starting connection and operation
sequence of two sends followed by one reply. -/
theorem C10_witness :
    sampleConn.commandCallbacks_ = sampleConn.exceptionCallbacks_ ∧
    (([PipelineOp.send "GET k" 8, PipelineOp.send "GET j" 9,
       PipelineOp.reply sampleOkReply].foldl applyOp
        sampleConn).commandCallbacks_.length
      = ([PipelineOp.send "GET k" 8, PipelineOp.send "GET j" 9,
          PipelineOp.reply sampleOkReply].foldl applyOp
            sampleConn).exceptionCallbacks_.length) := by
  refine ⟨rfl, ?_⟩
  exact (C10_queues_in_lockstep sampleConn
      [PipelineOp.send "GET k" 8, PipelineOp.send "GET j" 9,
       PipelineOp.reply sampleOkReply] rfl).1

theorem sendAll_cons (c : RedisConnection) (p : String × Nat)
    (ps : List (String × Nat)) :
    sendAll c (p :: ps) = sendAll (sendCommandInloop c p.1 p.2) ps := rfl

theorem sendAll_commandCallbacks (cmds : List (String × Nat))
    (c : RedisConnection) :
    (sendAll c cmds).commandCallbacks_
      = c.commandCallbacks_ ++ cmds.map Prod.snd := by
  induction cmds generalizing c with
  | nil => simp [sendAll]
  | cons p ps ih => simp [sendAll_cons, ih, sendCommandInloop]

theorem sendAll_exceptionCallbacks (cmds : List (String × Nat))
    (c : RedisConnection) :
    (sendAll c cmds).exceptionCallbacks_
      = c.exceptionCallbacks_ ++ cmds.map Prod.snd := by
  induction cmds generalizing c with
  | nil => simp [sendAll]
  | cons p ps ih => simp [sendAll_cons, ih, sendCommandInloop]

theorem deliverAll_events (replies : List RedisReply) (ids : List Nat)
    (c : RedisConnection)
    (hc : c.commandCallbacks_ = ids) (he : c.exceptionCallbacks_ = ids)
    (hlen : replies.length = ids.length) :
    (deliverAll c replies).2 = List.zipWith dispatchEvent ids replies := by
  induction replies generalizing ids c with
  | nil =>
      cases ids with
      | nil => simp [deliverAll]
      | cons id ids => simp at hlen
  | cons r rs ih =>
      cases ids with
      | nil => simp at hlen
      | cons id ids =>
          have hstep : handleResult c r =
              ({ c with commandCallbacks_ := ids, exceptionCallbacks_ := ids },
               [dispatchEvent id r]) := by
            by_cases ht : r.type = REDIS_REPLY_ERROR <;>
              simp [handleResult, handleResultRun, hc, he, dispatchEvent, ht]
          simp only [deliverAll, hstep]
          rw [ih ids _ rfl rfl (by simpa using hlen)]
          simp [List.zipWith]

/-- C2: starting Connected with empty queues, sending N commands and then
delivering N replies in order fires exactly N continuations, in send
order, the i-th invocation using the continuation of the i-th command. -/
theorem C2_pipelining_order (c : RedisConnection)
    (cmds : List (String × Nat)) (replies : List RedisReply)
    (hconn : c.connected_ = ConnectStatus.kConnected)
    (hc : c.commandCallbacks_ = []) (he : c.exceptionCallbacks_ = [])
    (hlen : replies.length = cmds.length) :
    (deliverAll (sendAll c cmds) replies).2
        = List.zipWith (fun p r => dispatchEvent p.2 r) cmds replies ∧
    (deliverAll (sendAll c cmds) replies).2.length = cmds.length := by
  have hq1 : (sendAll c cmds).commandCallbacks_ = cmds.map Prod.snd := by
    rw [sendAll_commandCallbacks, hc]; simp
  have hq2 : (sendAll c cmds).exceptionCallbacks_ = cmds.map Prod.snd := by
    rw [sendAll_exceptionCallbacks, he]; simp
  have hev := deliverAll_events replies (cmds.map Prod.snd) _ hq1 hq2
      (by simpa using hlen)
  have hzip : List.zipWith dispatchEvent (cmds.map Prod.snd) replies
      = List.zipWith (fun p r => dispatchEvent p.2 r) cmds replies := by
    clear hlen hev hq1 hq2
    induction cmds generalizing replies with
    | nil => simp
    | cons p ps ih =>
        cases replies with
        | nil => simp
        | cons r rs => simp [List.zipWith, ih]
  refine ⟨by rw [hev, hzip], ?_⟩
  rw [hev]
  simp [hlen]

/-- Witness for C2 at two concrete commands answered by one success and
one error reply. -/
theorem C2_witness :
    (deliverAll (sendAll
        { sampleConn with commandCallbacks_ := [], exceptionCallbacks_ := [] }
        [("GET k", 0), ("GET j", 1)])
        [sampleOkReply, sampleErrorReply]).2
      = [Event.success 0 sampleOkReply,
         Event.failure 1 "ERR wrong number of arguments"] := by
  have h := C2_pipelining_order
      { sampleConn with commandCallbacks_ := [], exceptionCallbacks_ := [] }
      [("GET k", 0), ("GET j", 1)] [sampleOkReply, sampleErrorReply]
      rfl rfl rfl rfl
  rw [h.1]
  simp [dispatchEvent, sampleOkReply, sampleErrorReply, REDIS_REPLY_ERROR]

/-- C6: when the engine's connect callback fires with a success status the
state becomes Connected and the installed connect handler is invoked once
with that status; with a failure status `handleDisconnect` runs (state
Ended, bridge released) and the installed disconnect handler is invoked
once with that status, with no connect-handler invocation. -/
theorem C6_connect_callback_dispatch (c : RedisConnection) (status : Int)
    (hcb : c.connectCallback_ = true) (hdcb : c.disconnectCallback_ = true) :
    (status = REDIS_OK →
      (connectCallbackInLoop c status).1.connected_ = ConnectStatus.kConnected ∧
      (connectCallbackInLoop c status).2 = [Event.connectHandler status]) ∧
    (status ≠ REDIS_OK →
      (connectCallbackInLoop c status).1.connected_ = ConnectStatus.kEnd ∧
      (connectCallbackInLoop c status).1.channel_ = none ∧
      (connectCallbackInLoop c status).2 = [Event.disconnectHandler status]) := by
  constructor
  · intro h
    simp [connectCallbackInLoop, h, hcb]
  · intro h
    cases hch : c.channel_ <;>
      simp [connectCallbackInLoop, h, handleDisconnect, hch, hdcb]

/-- Witness for C6 at a concrete connection, applied to a failure
status. -/
theorem C6_witness :
    sampleConn.connectCallback_ = true ∧
    sampleConn.disconnectCallback_ = true ∧
    (connectCallbackInLoop sampleConn (-1)).1.connected_ = ConnectStatus.kEnd ∧
    (connectCallbackInLoop sampleConn (-1)).2 = [Event.disconnectHandler (-1)] := by
  have h := (C6_connect_callback_dispatch sampleConn (-1) rfl rfl).2 (by decide)
  exact ⟨rfl, rfl, h.1, h.2.2⟩

/-- A connection that has already reached `kEnd` with its channel
released, both handlers installed and no pending commands. -/
def endedConn : RedisConnection :=
  { connected_ := ConnectStatus.kEnd,
    channel_ := none,
    commandCallbacks_ := [],
    exceptionCallbacks_ := [],
    command_ := "",
    connectCallback_ := true,
    disconnectCallback_ := true }

/-- C7 counterexample: on an already-Ended connection the disconnect
callback still invokes the user-supplied disconnect handler, and the
connect callback invoked with a success status moves the state back to
Connected — neither callback is a no-op after Ended. -/
theorem C7_counterexample :
    (disconnectCallbackInLoop endedConn 0).2 ≠ [] ∧
    (connectCallbackInLoop endedConn REDIS_OK).1.connected_
      = ConnectStatus.kConnected := by decide

/-- C7 amended: the callbacks carry no Ended guard.  After Ended the
disconnect callback leaves the connection state (and every other field)
unchanged but invokes the user-supplied disconnect handler again, and the
connect callback invoked with a success status sets the state back to
Connected and invokes the connect handler again; freedom from such
re-invocations comes from the engine firing each callback at most once,
not from these functions. -/
theorem C7_no_ended_guard (c : RedisConnection) (s : Int)
    (hend : c.connected_ = ConnectStatus.kEnd) (hch : c.channel_ = none)
    (hccb : c.connectCallback_ = true) (hdcb : c.disconnectCallback_ = true) :
    ((disconnectCallbackInLoop c s).1 = c ∧
     (disconnectCallbackInLoop c s).2 = [Event.disconnectHandler s]) ∧
    (s = REDIS_OK →
      (connectCallbackInLoop c s).1.connected_ = ConnectStatus.kConnected ∧
      (connectCallbackInLoop c s).2 = [Event.connectHandler s]) := by
  refine ⟨⟨?_, ?_⟩, fun h => ?_⟩
  · cases c
    simp_all [disconnectCallbackInLoop, handleDisconnect]
  · simp [disconnectCallbackInLoop, handleDisconnect, hch, hdcb]
  · simp [connectCallbackInLoop, h, hccb]

/-- Witness for C7's amended statement at the concrete Ended
connection. -/
theorem C7_no_ended_guard_witness :
    (disconnectCallbackInLoop endedConn 2).1 = endedConn ∧
    (disconnectCallbackInLoop endedConn 2).2 = [Event.disconnectHandler 2] :=
  (C7_no_ended_guard endedConn 2 rfl rfl rfl rfl).1

/-- C8 counterexample: with flags `REDIS_CONNECTED ||| REDIS_DISCONNECTING`
the engine is in a disconnecting state (the disconnecting bit is set), yet
`handleRedisWrite` — which compares the whole flags word against
`REDIS_DISCONNECTING` — enters the write pump with the channel untouched:
still subscribed and not removed. -/
theorem C8_counterexample :
    engineDisconnecting (REDIS_CONNECTED ||| REDIS_DISCONNECTING) ∧
    (handleRedisWrite { reading := true, writing := true, removed := false }
        (REDIS_CONNECTED ||| REDIS_DISCONNECTING)).channelAtPump
      = { reading := true, writing := true, removed := false } := by decide

/-- C8 amended: the on-writable handler always completes the call into the
engine's write pump; it disables the channel's subscriptions and removes
the channel beforehand exactly when the context's flags word equals
`REDIS_DISCONNECTING` alone (a disconnect requested with every other flag
clear), and leaves the channel untouched for every other flags word — even
one whose disconnecting bit is set. -/
theorem C8_write_guard (ch : Channel) (flags : Nat) :
    (handleRedisWrite ch flags).pumpCalled = true ∧
    (flags = REDIS_DISCONNECTING →
      (handleRedisWrite ch flags).channelAtPump
        = Channel.remove (Channel.disableAll ch)) ∧
    (flags ≠ REDIS_DISCONNECTING →
      (handleRedisWrite ch flags).channelAtPump = ch) := by
  by_cases h : flags = REDIS_DISCONNECTING <;> simp [handleRedisWrite, h]

/-- Witness for C8's amended statement at a concrete channel and the exact
disconnecting flags word. -/
theorem C8_write_guard_witness :
    (handleRedisWrite { reading := true, writing := true, removed := false }
        REDIS_DISCONNECTING).channelAtPump
      = Channel.remove (Channel.disableAll
          { reading := true, writing := true, removed := false }) :=
  (C8_write_guard { reading := true, writing := true, removed := false }
      REDIS_DISCONNECTING).2.1 rfl

/-- The full lifecycle chain of a connection whose connect succeeds. -/
def lifecycleChainFull : List ConnectStatus :=
  [ConnectStatus.kNone, ConnectStatus.kConnecting,
   ConnectStatus.kConnected, ConnectStatus.kEnd]

/-- The lifecycle chain of a connection whose connect fails. -/
def lifecycleChainFailed : List ConnectStatus :=
  [ConnectStatus.kNone, ConnectStatus.kConnecting, ConnectStatus.kEnd]

/-- C3: along every notification sequence the engine can deliver, the
observed state sequence is a subsequence of
Unconnected → Connecting → Connected → Ended or of
Unconnected → Connecting → Ended, and every state observed from the first
Ended on is Ended. -/
theorem C3_states_forward_only (c : RedisConnection) (t : List EngineEvent)
    (hv : ValidEngineTrace t) :
    (List.Sublist (observedStates c t) lifecycleChainFull ∨
     List.Sublist (observedStates c t) lifecycleChainFailed) ∧
    ((observedStates c t).dropWhile (fun s => s != ConnectStatus.kEnd)).all
        (fun s => s == ConnectStatus.kEnd) = true := by
  cases hv with
  | nil =>
      have hobs : observedStates c [] =
          [ConnectStatus.kNone, ConnectStatus.kConnecting] := by
        simp [observedStates, runEngine]
      rw [hobs]
      exact ⟨Or.inl (by decide), by decide⟩
  | ok =>
      have hobs : observedStates c [EngineEvent.connectOk] =
          [ConnectStatus.kNone, ConnectStatus.kConnecting,
           ConnectStatus.kConnected] := by
        simp [observedStates, runEngine, engineStep, connectCallbackInLoop]
      rw [hobs]
      exact ⟨Or.inl (by decide), by decide⟩
  | fail s hs =>
      have hobs : observedStates c [EngineEvent.connectFail s] =
          lifecycleChainFailed := by
        simp [observedStates, runEngine, engineStep, connectCallbackInLoop,
          handleDisconnect, startConnectionInLoop, hs, lifecycleChainFailed]
      rw [hobs]
      exact ⟨Or.inr (List.Sublist.refl _), by decide⟩
  | okDisc s =>
      have hobs : observedStates c
          [EngineEvent.connectOk, EngineEvent.disconnected s] =
          lifecycleChainFull := by
        simp [observedStates, runEngine, engineStep, connectCallbackInLoop,
          disconnectCallbackInLoop, handleDisconnect, startConnectionInLoop,
          lifecycleChainFull]
      rw [hobs]
      exact ⟨Or.inl (List.Sublist.refl _), by decide⟩

/-- Witness for C3 at a concrete connection and the concrete trace
connect-then-disconnect. -/
theorem C3_witness :
    (List.Sublist
        (observedStates endedConn
          [EngineEvent.connectOk, EngineEvent.disconnected 0])
        lifecycleChainFull ∨
     List.Sublist
        (observedStates endedConn
          [EngineEvent.connectOk, EngineEvent.disconnected 0])
        lifecycleChainFailed) :=
  (C3_states_forward_only endedConn
      [EngineEvent.connectOk, EngineEvent.disconnected 0]
      (ValidEngineTrace.okDisc 0)).1

end Drogon
